import Mathlib

/-!
Shallow embedding of `src/common/vb_log.c` (GigaWireVB log feature): the
severity gate, the fixed-width header builder `VbLogHdrBuild`, the plain and
extended print helpers, and the tiny pieces of mutable state
(`vbLogVerbose`).  C strings are modelled as `List Char` holding the
characters before the terminating NUL; C buffers are modelled as `List Char`
that may contain NUL bytes, with `cString` extracting what `syslog`'s `"%s"`
would read.  Machine integers are `Nat` with explicit `% 2^16` where the C
type (`INT16U`) truncates.
-/

namespace VbLog

/-! Constants, verbatim from the `#define` block of `vb_log.c` (lines 81-98). -/

def VB_LOG_MAX_MODE_LEN : Nat := 7
def VB_LOG_MAX_FILE_LEN : Nat := 30
def VB_LOG_MAX_LINENUM_LEN : Nat := 5
def VB_LOG_MAX_FUNC_LEN : Nat := 40
def VB_LOG_MAX_EXTRA_LEN : Nat := 24
def VB_LOG_MAX_HDR_LEN : Nat :=
  VB_LOG_MAX_FILE_LEN + VB_LOG_MAX_LINENUM_LEN + VB_LOG_MAX_FUNC_LEN +
  VB_LOG_MAX_MODE_LEN + VB_LOG_MAX_EXTRA_LEN

/-- Modelled from the spec: `VB_EA_DRIVER_ID_MAX_SIZE` is defined in
`vb_ea_communication.h`, which is not under `src/`.  The spec fixes the
subsystem-id field width at 20 and states that at most width-1 = 19 source
characters are copied before the terminator, which pins the buffer size of
`driver_id_str` (and hence this macro) to 20. -/
def VB_EA_DRIVER_ID_MAX_SIZE : Nat := 20

def VB_LOG_MAX_DRIVER_HDR_LEN : Nat := VB_EA_DRIVER_ID_MAX_SIZE + 2

/-- Width hard-coded inside the format string `VB_LOG_DRIVER_ID_FMT`
(`"[%-20s]"`, `vb_log.c` line 93). -/
def VB_LOG_DRIVER_ID_WIDTH : Nat := 20

def VB_LOG_MAX_EXT_HDR_LEN : Nat := VB_LOG_MAX_HDR_LEN + VB_LOG_MAX_DRIVER_HDR_LEN
def VB_LOG_MAX_LINE_LEN : Nat := 200
def VB_LOG_ENTRY_LEN : Nat := VB_LOG_MAX_HDR_LEN + VB_LOG_MAX_LINE_LEN
def VB_LOG_EXT_ENTRY_LEN : Nat := VB_LOG_MAX_EXT_HDR_LEN + VB_LOG_MAX_LINE_LEN

/-! Log levels.  Modelled from the spec: `t_vbLogLevel` is declared in
`vb_log.h`, which is not under `src/`.  The spec describes an ordered
enumeration of severities from most to least critical with a terminal
sentinel used only as a bound check; its scenarios name ERROR, WARN(ING)
and INFO with ERROR the most severe.  C enumerators are small integers, so
levels are embedded as `Nat` (an out-of-range request is any value at or
beyond the sentinel). -/

def VB_LOG_ERROR : Nat := 0
def VB_LOG_WARNING : Nat := 1
def VB_LOG_INFO : Nat := 2
def VB_LOG_DEBUG : Nat := 3
def VB_LOG_LAST : Nat := 4

/-- Modelled from the spec: `VbVerboseLevelToStr` lives in `vb_util.c`,
not under `src/`; the spec only requires the level's short display name.
Only the bound `length ≤ 7` and NUL-freeness of the result matter to any
claim, and both hold for every branch. -/
def VbVerboseLevelToStr (mode : Nat) : List Char :=
  if mode = VB_LOG_ERROR then "ERROR".data
  else if mode = VB_LOG_WARNING then "WARNING".data
  else if mode = VB_LOG_INFO then "INFO".data
  else if mode = VB_LOG_DEBUG then "DEBUG".data
  else "UNKNOWN".data

/-! Byte-level primitives shared by the embedding. -/

/-- The NUL byte written by `snprintf`/`strncpy` terminators and by `calloc`. -/
def NUL : Char := Char.ofNat 0

/-- Overwrite `data.length` bytes of `buf` starting at offset `off`
(pointer arithmetic plus a bounded write in the C source). -/
def writeAt (buf : List Char) (off : Nat) (data : List Char) : List Char :=
  buf.take off ++ data ++ buf.drop (off + data.length)

/-- The string `"%s"` extracts from a buffer: the bytes before the first NUL. -/
def cString (buf : List Char) : List Char := buf.takeWhile (fun c => c ≠ NUL)

/-- Space padding on the left: `printf` `"%Ns"` for a width-`N` field. -/
def padLeft (w : Nat) (s : List Char) : List Char :=
  List.replicate (w - s.length) ' ' ++ s

/-- Space padding on the right: `printf` `"%-Ns"` for a width-`N` field. -/
def padRight (w : Nat) (s : List Char) : List Char :=
  s ++ List.replicate (w - s.length) ' '

/-- Decimal digit character; the argument is always taken `% 10` below. -/
def digitChar (n : Nat) : Char :=
  match n with
  | 0 => '0' | 1 => '1' | 2 => '2' | 3 => '3' | 4 => '4'
  | 5 => '5' | 6 => '6' | 7 => '7' | 8 => '8' | 9 => '9'
  | _ => '*'

/-- Rendering of `"%02d"`.  Exact for arguments below 100; the `tm_hour`,
`tm_min`, `tm_sec` fields produced by `localtime` lie in that range. -/
def zeroPad2 (n : Nat) : List Char :=
  [digitChar (n / 10 % 10), digitChar (n % 10)]

/-- Rendering of `"%03d"`.  Exact for arguments below 1000; the millisecond
argument is clamped to 999 before formatting. -/
def zeroPad3 (n : Nat) : List Char :=
  [digitChar (n / 100 % 10), digitChar (n / 10 % 10), digitChar (n % 10)]

/-- Rendering of `"%05u"`.  Exact for arguments below 100000; the line
number argument has C type `INT16U`, hence is below 65536. -/
def zeroPad5 (n : Nat) : List Char :=
  [digitChar (n / 10000 % 10), digitChar (n / 1000 % 10), digitChar (n / 100 % 10),
   digitChar (n / 10 % 10), digitChar (n % 10)]

/-! Header construction, `VbLogHdrBuild` (`vb_log.c` lines 143-195). -/

/-- Wall-clock sample: `tm_hour`/`tm_min`/`tm_sec` from `localtime` plus
`tv_usec` from `gettimeofday`.  The embedding treats the clock as an input;
`localtime` returning NULL (in which case the source leaves `dst` untouched)
is not modelled, as no claim depends on it. -/
structure WallClock where
  tm_hour : Nat
  tm_min : Nat
  tm_sec : Nat
  tv_usec : Nat

/-- Level field: `snprintf(mode_str, 8, "%7s", VbVerboseLevelToStr(mode))`
followed by the forced terminator (lines 164-165): pad to 7, keep 7 bytes. -/
def mode_str (mode : Nat) : List Char :=
  (padLeft VB_LOG_MAX_MODE_LEN (VbVerboseLevelToStr mode)).take VB_LOG_MAX_MODE_LEN

/-- File field: `strncpy(file_name_str, file, 31)` with the terminator forced
at index 30 (lines 168-169): the first 30 characters survive. -/
def file_name_str (file : List Char) : List Char :=
  file.take VB_LOG_MAX_FILE_LEN

/-- Line-number field: `snprintf(linenum_name_str, 6, "%05u", line)` with the
terminator forced at index 5 (lines 172-173).  The C parameter type `INT16U`
truncates the argument modulo 2^16. -/
def linenum_name_str (line : Nat) : List Char :=
  zeroPad5 (line % 65536)

/-- Function field: `strncpy(func_name_str, function, 41)` with the
terminator forced at index 40 (lines 176-177). -/
def func_name_str (fn : List Char) : List Char :=
  fn.take VB_LOG_MAX_FUNC_LEN

/-- Millisecond clamp (lines 181-186): `msec = tv_usec / 1000`, then values
at or above 1000 are forced to 999. -/
def msecClamp (tv_usec : Nat) : Nat :=
  if tv_usec / 1000 ≥ 1000 then 999 else tv_usec / 1000

/-- The text produced by
`snprintf(dst, 107, "[%7s][%30s][%5s][%40s][%02d:%02d:%02d %03dms]", ...)`
(lines 189-191): each field padded to its width, the whole output capped at
`VB_LOG_MAX_HDR_LEN` bytes by the `snprintf` size argument. -/
def headerString (mode : Nat) (file : List Char) (line : Nat) (fn : List Char)
    (clk : WallClock) : List Char :=
  (('[' :: padLeft VB_LOG_MAX_MODE_LEN (mode_str mode)) ++
   (']' :: '[' :: padLeft VB_LOG_MAX_FILE_LEN (file_name_str file)) ++
   (']' :: '[' :: padLeft VB_LOG_MAX_LINENUM_LEN (linenum_name_str line)) ++
   (']' :: '[' :: padLeft VB_LOG_MAX_FUNC_LEN (func_name_str fn)) ++
   (']' :: '[' :: zeroPad2 clk.tm_hour) ++
   (':' :: zeroPad2 clk.tm_min) ++
   (':' :: zeroPad2 clk.tm_sec) ++
   (' ' :: zeroPad3 (msecClamp clk.tv_usec)) ++
   "ms]".data).take VB_LOG_MAX_HDR_LEN

/-- The whole of `VbLogHdrBuild` (lines 143-195): if the mode is below the
sentinel and both source-location strings are non-NULL, write the header
text plus its terminator at offset 0 of `dst`; otherwise leave `dst`
untouched.  (`dst` itself is always a valid buffer at every call site, and
`localtime` failure is not modelled; see `WallClock`.) -/
def VbLogHdrBuild (dst : List Char) (mode : Nat) (file : Option (List Char))
    (line : Nat) (fn : Option (List Char)) (clk : WallClock) : List Char :=
  match file, fn with
  | some f, some g =>
    if mode < VB_LOG_LAST then
      writeAt dst 0 (headerString mode f line g clk ++ [NUL])
    else dst
  | _, _ => dst

/-! Process-wide state and public entry points (`vb_log.c` lines 106, 205-313).
State is passed explicitly; each C function becomes a function from the state
to a result together with the state it leaves behind. -/

/-- The private variable block: `static t_vbLogLevel vbLogVerbose` (line 106)
is the only core state. -/
structure LogState where
  vbLogVerbose : Nat

/-- Observable effects of one print call: the strings handed to `syslog`
(one per sink call), the number of fallback diagnostics written to stderr
via `VbLogErrorPrint`, and whether a buffer was allocated. -/
structure LogCallResult where
  sinkCalls : List (List Char)
  errorPrints : Nat
  allocated : Bool

/-- The body of `VbLogInit` (lines 205-210): store `verboseLevel` in the
private variable and return 0.  All other parameters are unused. -/
def VbLogInit (queueName : List Char) (verboseLevel : Nat) (outputFolder : List Char)
    (persLogNumLines : Nat) (persLogVerbose : Nat) (circular : Bool)
    (s : LogState) : Int × LogState :=
  (0, { vbLogVerbose := verboseLevel })

/-- The body of `VbLogVerboseLevelGet` (lines 310-313). -/
def VbLogVerboseLevelGet (s : LogState) : Nat := s.vbLogVerbose

/-- The buffer built by the allocation-success branch of `VbLogPrint_helper`
(lines 235-250): a zeroed `calloc` block of `VB_LOG_ENTRY_LEN + 1` bytes,
then `VbLogHdrBuild` at offset 0, then
`vsnprintf(log_line + VB_LOG_MAX_HDR_LEN, VB_LOG_MAX_LINE_LEN, fmt, args)`.
The variadic rendering itself is not modelled: `msg` is the text `vsnprintf`
would produce unbounded, and the size argument keeps its first
`VB_LOG_MAX_LINE_LEN - 1` bytes plus a terminator. -/
def VbLogPrint_buffer (mode : Nat) (clk : WallClock) (file : Option (List Char))
    (line : Nat) (fn : Option (List Char)) (msg : List Char) : List Char :=
  writeAt (VbLogHdrBuild (List.replicate (VB_LOG_ENTRY_LEN + 1) NUL) mode file line fn clk)
    VB_LOG_MAX_HDR_LEN (msg.take (VB_LOG_MAX_LINE_LEN - 1) ++ [NUL])

/-- The whole of `VbLogPrint_helper` (lines 227-256).  `allocOk` models the
environment's answer to `calloc`: on failure the source prints one fallback
diagnostic via `VbLogErrorPrint` and gives up; on success it builds the
buffer and makes exactly one `syslog` call carrying the buffer's C string.
The gate is the single comparison `verboseLevel <= vbLogVerbose`. -/
def VbLogPrint_helper (s : LogState) (allocOk : Bool) (clk : WallClock)
    (file : Option (List Char)) (line : Nat) (fn : Option (List Char))
    (verboseLevel : Nat) (msg : List Char) : LogCallResult × LogState :=
  (if verboseLevel ≤ s.vbLogVerbose then
    if allocOk then
      { sinkCalls := [cString (VbLogPrint_buffer verboseLevel clk file line fn msg)],
        errorPrints := 0, allocated := true }
    else
      { sinkCalls := [], errorPrints := 1, allocated := false }
  else
    { sinkCalls := [], errorPrints := 0, allocated := false }, s)

/-- Subsystem-id copy of `VbLogPrintExt_helper` (lines 284-285):
`strncpy(driver_id_str, driverId, VB_EA_DRIVER_ID_MAX_SIZE)` with the
terminator forced at index `VB_EA_DRIVER_ID_MAX_SIZE - 1`: the first
`VB_EA_DRIVER_ID_MAX_SIZE - 1` characters survive. -/
def driver_id_str (driverId : List Char) : List Char :=
  driverId.take (VB_EA_DRIVER_ID_MAX_SIZE - 1)

/-- The bytes `snprintf(dst, VB_LOG_MAX_DRIVER_HDR_LEN, "[%-20s]", driver_id_str)`
places before its terminator (line 288): the bracketed, left-justified,
width-20 rendering, capped at `VB_LOG_MAX_DRIVER_HDR_LEN - 1` bytes by the
`snprintf` size argument. -/
def driverRegion (driverId : List Char) : List Char :=
  (('[' :: padRight VB_LOG_DRIVER_ID_WIDTH (driver_id_str driverId)) ++ "]".data).take
    (VB_LOG_MAX_DRIVER_HDR_LEN - 1)

/-- The buffer built by the allocation-success branch of
`VbLogPrintExt_helper` (lines 269-294): a zeroed block of
`VB_LOG_EXT_ENTRY_LEN + 1` bytes, the base header at offset 0, the driver-id
field at offset `VB_LOG_MAX_HDR_LEN`, and the message at offset
`VB_LOG_MAX_HDR_LEN + VB_LOG_MAX_DRIVER_HDR_LEN - 1` (the `-1` mirrors
`dst += VB_LOG_MAX_DRIVER_HDR_LEN - 1`, landing on the terminator the
driver-id `snprintf` wrote). -/
def VbLogPrintExt_buffer (mode : Nat) (clk : WallClock) (file : Option (List Char))
    (line : Nat) (fn : Option (List Char)) (driverId : List Char)
    (msg : List Char) : List Char :=
  writeAt
    (writeAt (VbLogHdrBuild (List.replicate (VB_LOG_EXT_ENTRY_LEN + 1) NUL) mode file line fn clk)
      VB_LOG_MAX_HDR_LEN (driverRegion driverId ++ [NUL]))
    (VB_LOG_MAX_HDR_LEN + VB_LOG_MAX_DRIVER_HDR_LEN - 1)
    (msg.take (VB_LOG_MAX_LINE_LEN - 1) ++ [NUL])

/-- The whole of `VbLogPrintExt_helper` (lines 260-300); same shape as the
plain helper with the extended buffer. -/
def VbLogPrintExt_helper (s : LogState) (allocOk : Bool) (clk : WallClock)
    (file : Option (List Char)) (line : Nat) (fn : Option (List Char))
    (verboseLevel : Nat) (driverId : List Char) (msg : List Char) :
    LogCallResult × LogState :=
  (if verboseLevel ≤ s.vbLogVerbose then
    if allocOk then
      { sinkCalls := [cString (VbLogPrintExt_buffer verboseLevel clk file line fn driverId msg)],
        errorPrints := 0, allocated := true }
    else
      { sinkCalls := [], errorPrints := 1, allocated := false }
  else
    { sinkCalls := [], errorPrints := 0, allocated := false }, s)

/-! General list facts used to compute the buffers in closed form. -/

theorem drop_append_add {α : Type} (l₁ l₂ : List α) (n : Nat) :
    (l₁ ++ l₂).drop (l₁.length + n) = l₂.drop n := by
  induction l₁ with
  | nil => simp
  | cons a t ih => simp [Nat.succ_add, ih]

theorem writeAt_pre (pre post d : List Char) :
    writeAt (pre ++ post) pre.length d = pre ++ d ++ post.drop d.length := by
  unfold writeAt
  rw [List.take_left, drop_append_add]

theorem writeAt_zero (n : Nat) (d : List Char) :
    writeAt (List.replicate n NUL) 0 d = d ++ List.replicate (n - d.length) NUL := by
  unfold writeAt
  simp [List.drop_replicate]

theorem cString_cons_nul (r : List Char) : cString (NUL :: r) = [] := by
  simp [cString]

theorem cString_append_nul (l r : List Char) (h : ∀ c ∈ l, c ≠ NUL) :
    cString (l ++ NUL :: r) = l := by
  induction l with
  | nil => simp [cString]
  | cons a t ih =>
    have ha : a ≠ NUL := h a (List.mem_cons_self a t)
    have ht : ∀ c ∈ t, c ≠ NUL := fun c hc => h c (List.mem_cons_of_mem a hc)
    simp [cString, List.takeWhile_cons, ha]
    simpa [cString] using ih ht

/-! Field lengths. -/

theorem padLeft_length (w : Nat) (s : List Char) :
    (padLeft w s).length = max w s.length := by
  simp [padLeft]; omega

theorem padRight_length (w : Nat) (s : List Char) :
    (padRight w s).length = max w s.length := by
  simp [padRight]; omega

theorem mode_str_length (mode : Nat) :
    (mode_str mode).length = VB_LOG_MAX_MODE_LEN := by
  simp [mode_str, padLeft_length, VB_LOG_MAX_MODE_LEN]

theorem headerString_length (mode : Nat) (f : List Char) (line : Nat)
    (g : List Char) (clk : WallClock) :
    (headerString mode f line g clk).length = VB_LOG_MAX_HDR_LEN := by
  have hm := mode_str_length mode
  simp [headerString, padLeft_length, hm, file_name_str, linenum_name_str,
    func_name_str, zeroPad2, zeroPad3, zeroPad5,
    VB_LOG_MAX_MODE_LEN, VB_LOG_MAX_FILE_LEN, VB_LOG_MAX_LINENUM_LEN,
    VB_LOG_MAX_FUNC_LEN, VB_LOG_MAX_EXTRA_LEN, VB_LOG_MAX_HDR_LEN]
  try omega

theorem driver_id_str_length_le (driverId : List Char) :
    (driver_id_str driverId).length ≤ VB_EA_DRIVER_ID_MAX_SIZE - 1 := by
  simp [driver_id_str]

theorem driverRegion_length (driverId : List Char) :
    (driverRegion driverId).length = VB_LOG_MAX_DRIVER_HDR_LEN - 1 := by
  have h := driver_id_str_length_le driverId
  simp [driverRegion, padRight_length, VB_LOG_DRIVER_ID_WIDTH,
    VB_LOG_MAX_DRIVER_HDR_LEN, VB_EA_DRIVER_ID_MAX_SIZE] at *
  try omega

/-! NUL-freeness of every byte the header and driver field can contain. -/

theorem digitChar_ne_nul (n : Nat) : digitChar n ≠ NUL := by
  unfold digitChar
  split <;> decide

theorem verboseLevelToStr_ne_nul (mode : Nat) :
    ∀ c ∈ VbVerboseLevelToStr mode, c ≠ NUL := by
  unfold VbVerboseLevelToStr
  split
  · decide
  · split
    · decide
    · split
      · decide
      · split <;> decide

theorem take_ne_nul (n : Nat) (s : List Char) (h : ∀ c ∈ s, c ≠ NUL) :
    ∀ c ∈ s.take n, c ≠ NUL :=
  fun c hc => h c (List.mem_of_mem_take hc)

theorem padLeft_ne_nul (w : Nat) (s : List Char) (h : ∀ c ∈ s, c ≠ NUL) :
    ∀ c ∈ padLeft w s, c ≠ NUL := by
  intro c hc
  simp [padLeft, List.mem_replicate] at hc
  rcases hc with ⟨_, h2⟩ | h2
  · subst h2; decide
  · exact h c h2

theorem padRight_ne_nul (w : Nat) (s : List Char) (h : ∀ c ∈ s, c ≠ NUL) :
    ∀ c ∈ padRight w s, c ≠ NUL := by
  intro c hc
  simp [padRight, List.mem_replicate] at hc
  rcases hc with h2 | ⟨_, h2⟩
  · exact h c h2
  · subst h2; decide

theorem mode_str_ne_nul (mode : Nat) : ∀ c ∈ mode_str mode, c ≠ NUL :=
  take_ne_nul _ _ (padLeft_ne_nul _ _ (verboseLevelToStr_ne_nul mode))

theorem zeroPad2_ne_nul (n : Nat) : ∀ c ∈ zeroPad2 n, c ≠ NUL := by
  intro c hc
  simp [zeroPad2] at hc
  rcases hc with h | h <;> (subst h; exact digitChar_ne_nul _)

theorem zeroPad3_ne_nul (n : Nat) : ∀ c ∈ zeroPad3 n, c ≠ NUL := by
  intro c hc
  simp [zeroPad3] at hc
  rcases hc with h | h | h <;> (subst h; exact digitChar_ne_nul _)

theorem zeroPad5_ne_nul (n : Nat) : ∀ c ∈ zeroPad5 n, c ≠ NUL := by
  intro c hc
  simp [zeroPad5] at hc
  rcases hc with h | h | h | h | h <;> (subst h; exact digitChar_ne_nul _)

theorem headerString_ne_nul (mode : Nat) (f : List Char) (line : Nat)
    (g : List Char) (clk : WallClock)
    (hf : ∀ c ∈ f, c ≠ NUL) (hg : ∀ c ∈ g, c ≠ NUL) :
    ∀ c ∈ headerString mode f line g clk, c ≠ NUL := by
  unfold headerString
  apply take_ne_nul
  simp only [List.forall_mem_append, List.forall_mem_cons]
  repeat' apply And.intro
  all_goals first
    | decide
    | exact padLeft_ne_nul _ _ (mode_str_ne_nul mode)
    | exact padLeft_ne_nul _ _ (take_ne_nul _ _ hf)
    | exact padLeft_ne_nul _ _ (take_ne_nul _ _ hg)
    | exact padLeft_ne_nul _ _ (zeroPad5_ne_nul _)
    | exact zeroPad2_ne_nul _
    | exact zeroPad3_ne_nul _

theorem driverRegion_ne_nul (driverId : List Char)
    (hd : ∀ c ∈ driverId, c ≠ NUL) :
    ∀ c ∈ driverRegion driverId, c ≠ NUL := by
  unfold driverRegion
  apply take_ne_nul
  simp only [List.forall_mem_append, List.forall_mem_cons]
  repeat' apply And.intro
  all_goals first
    | decide
    | exact padRight_ne_nul _ _ (take_ne_nul _ _ hd)

/-! Numeric values of the derived constants. -/

theorem VB_LOG_MAX_HDR_LEN_eq : VB_LOG_MAX_HDR_LEN = 106 := rfl

theorem VB_LOG_ENTRY_LEN_eq : VB_LOG_ENTRY_LEN = 306 := rfl

theorem VB_LOG_MAX_DRIVER_HDR_LEN_eq : VB_LOG_MAX_DRIVER_HDR_LEN = 22 := rfl

theorem VB_LOG_MAX_EXT_HDR_LEN_eq : VB_LOG_MAX_EXT_HDR_LEN = 128 := rfl

theorem VB_LOG_EXT_ENTRY_LEN_eq : VB_LOG_EXT_ENTRY_LEN = 328 := rfl

/-! Closed forms of the two buffers. -/

theorem VB_LOG_MAX_LINE_LEN_eq : VB_LOG_MAX_LINE_LEN = 200 := rfl

theorem writeAt_eq (pre post d : List Char) (off : Nat) (h : pre.length = off) :
    writeAt (pre ++ post) off d = pre ++ d ++ post.drop d.length := by
  subst h; exact writeAt_pre pre post d

theorem writeAt_replicate_mid (N off : Nat) (d : List Char) (h : off ≤ N) :
    writeAt (List.replicate N NUL) off d =
      List.replicate off NUL ++ d ++ List.replicate (N - (off + d.length)) NUL := by
  unfold writeAt
  simp [List.take_replicate, List.drop_replicate, Nat.min_eq_left h]

theorem cString_replicate_nul (k : Nat) (hk : 0 < k) (r : List Char) :
    cString (List.replicate k NUL ++ r) = [] := by
  cases k with
  | zero => omega
  | succ n => simp [List.replicate_succ, cString]

theorem VbLogHdrBuild_some (dst : List Char) (mode : Nat) (f g : List Char)
    (line : Nat) (clk : WallClock) (hm : mode < VB_LOG_LAST) :
    VbLogHdrBuild dst mode (some f) line (some g) clk =
      writeAt dst 0 (headerString mode f line g clk ++ [NUL]) := by
  simp [VbLogHdrBuild, hm]

theorem VbLogHdrBuild_null (dst : List Char) (mode : Nat)
    (file fn : Option (List Char)) (line : Nat) (clk : WallClock)
    (h : file = none ∨ fn = none) :
    VbLogHdrBuild dst mode file line fn clk = dst := by
  rcases h with h | h
  · subst h; cases fn <;> rfl
  · subst h; cases file <;> rfl

theorem VbLogPrint_buffer_eq (mode : Nat) (clk : WallClock) (f g : List Char)
    (line : Nat) (msg : List Char) (hm : mode < VB_LOG_LAST) :
    VbLogPrint_buffer mode clk (some f) line (some g) msg =
      headerString mode f line g clk ++ msg.take 199 ++
        NUL :: List.replicate (200 - (msg.take 199).length) NUL := by
  have hh := headerString_length mode f line g clk
  unfold VbLogPrint_buffer
  rw [VbLogHdrBuild_some _ _ _ _ _ _ hm, writeAt_zero, List.append_assoc]
  rw [writeAt_eq _ _ _ _ (by rw [hh])]
  simp only [VB_LOG_ENTRY_LEN_eq, VB_LOG_MAX_LINE_LEN_eq, List.length_append,
    List.length_take, List.length_cons, List.length_nil, hh, VB_LOG_MAX_HDR_LEN_eq]
  have h5 : 306 + 1 - (106 + 1) = 200 := by omega
  rw [h5]
  have h6 : ([NUL] ++ List.replicate 200 NUL).drop (min 199 msg.length + (0 + 1)) =
      List.replicate (200 - min 199 msg.length) NUL := by
    rw [List.singleton_append, show (0:Nat) + 1 = 1 from rfl, List.drop_succ_cons,
      List.drop_replicate]
  rw [h6]
  simp [List.append_assoc, List.length_take]

theorem VbLogPrint_buffer_null (mode : Nat) (clk : WallClock)
    (file fn : Option (List Char)) (line : Nat) (msg : List Char)
    (h : file = none ∨ fn = none) :
    VbLogPrint_buffer mode clk file line fn msg =
      List.replicate 106 NUL ++ msg.take 199 ++
        NUL :: List.replicate (200 - (msg.take 199).length) NUL := by
  unfold VbLogPrint_buffer
  rw [VbLogHdrBuild_null _ _ _ _ _ _ h, writeAt_replicate_mid _ _ _ (by decide)]
  simp only [VB_LOG_ENTRY_LEN_eq, VB_LOG_MAX_HDR_LEN_eq, VB_LOG_MAX_LINE_LEN_eq,
    List.length_append, List.length_take, List.length_cons, List.length_nil]
  have h5 : 306 + 1 - (106 + (min 199 msg.length + (0 + 1))) = 200 - min 199 msg.length := by
    omega
  rw [h5]
  simp [List.append_assoc, List.length_take]

theorem VbLogPrintExt_buffer_eq (mode : Nat) (clk : WallClock) (f g did : List Char)
    (line : Nat) (msg : List Char) (hm : mode < VB_LOG_LAST) :
    VbLogPrintExt_buffer mode clk (some f) line (some g) did msg =
      headerString mode f line g clk ++ driverRegion did ++ msg.take 199 ++
        NUL :: List.replicate (201 - (msg.take 199).length) NUL := by
  have hh := headerString_length mode f line g clk
  have hr := driverRegion_length did
  have hc1 : (headerString mode f line g clk ++ [NUL]).length = 107 := by
    simp [hh, VB_LOG_MAX_HDR_LEN_eq]
  have hc2 : (driverRegion did ++ [NUL]).length = 22 := by
    simp [hr, VB_LOG_MAX_DRIVER_HDR_LEN_eq]
  unfold VbLogPrintExt_buffer
  rw [VbLogHdrBuild_some _ _ _ _ _ _ hm, writeAt_zero, List.append_assoc]
  rw [writeAt_eq _ _ _ _ (by rw [hh])]
  rw [hc1, hc2]
  have hD : ([NUL] ++ List.replicate (VB_LOG_EXT_ENTRY_LEN + 1 - 107) NUL).drop 22 =
      List.replicate 201 NUL := by
    rw [show VB_LOG_EXT_ENTRY_LEN + 1 - 107 = 222 from rfl, List.singleton_append,
      show (22:Nat) = 21 + 1 from rfl, List.drop_succ_cons, List.drop_replicate]
  rw [hD]
  rw [show (headerString mode f line g clk ++ (driverRegion did ++ [NUL])) ++
        List.replicate 201 NUL =
      (headerString mode f line g clk ++ driverRegion did) ++
        ([NUL] ++ List.replicate 201 NUL) from by simp [List.append_assoc]]
  rw [writeAt_eq _ _ _ _
    (by simp [hh, hr, VB_LOG_MAX_HDR_LEN_eq, VB_LOG_MAX_DRIVER_HDR_LEN_eq])]
  rw [show VB_LOG_MAX_LINE_LEN - 1 = 199 from rfl]
  have hdrop : ([NUL] ++ List.replicate 201 NUL).drop (msg.take 199 ++ [NUL]).length =
      List.replicate (201 - (msg.take 199).length) NUL := by
    rw [show (msg.take 199 ++ [NUL]).length = (msg.take 199).length + 1 from by simp,
      List.singleton_append, List.drop_succ_cons, List.drop_replicate]
  rw [hdrop]
  simp [List.append_assoc]

theorem VbLogPrintExt_line_null (mode : Nat) (clk : WallClock)
    (file fn : Option (List Char)) (did : List Char) (line : Nat) (msg : List Char)
    (h : file = none ∨ fn = none) :
    cString (VbLogPrintExt_buffer mode clk file line fn did msg) = [] := by
  have hr := driverRegion_length did
  have hc2 : (driverRegion did ++ [NUL]).length = 22 := by
    simp [hr, VB_LOG_MAX_DRIVER_HDR_LEN_eq]
  unfold VbLogPrintExt_buffer
  rw [VbLogHdrBuild_null _ _ _ _ _ _ h, writeAt_replicate_mid _ _ _ (by decide)]
  rw [hc2, show VB_LOG_EXT_ENTRY_LEN + 1 - (VB_LOG_MAX_HDR_LEN + 22) = 201 from rfl]
  rw [show (List.replicate VB_LOG_MAX_HDR_LEN NUL ++ (driverRegion did ++ [NUL])) ++
        List.replicate 201 NUL =
      (List.replicate VB_LOG_MAX_HDR_LEN NUL ++ driverRegion did) ++
        ([NUL] ++ List.replicate 201 NUL) from by simp [List.append_assoc]]
  rw [writeAt_eq _ _ _ _
    (by simp [hr, VB_LOG_MAX_HDR_LEN_eq, VB_LOG_MAX_DRIVER_HDR_LEN_eq])]
  rw [List.append_assoc, List.append_assoc]
  exact cString_replicate_nul _ (by norm_num [VB_LOG_MAX_HDR_LEN_eq]) _

theorem VbLogPrint_line_eq (mode : Nat) (clk : WallClock) (f g : List Char)
    (line : Nat) (msg : List Char) (hm : mode < VB_LOG_LAST)
    (hf : ∀ c ∈ f, c ≠ NUL) (hg : ∀ c ∈ g, c ≠ NUL) (hmsg : ∀ c ∈ msg, c ≠ NUL) :
    cString (VbLogPrint_buffer mode clk (some f) line (some g) msg) =
      headerString mode f line g clk ++ msg.take 199 := by
  rw [VbLogPrint_buffer_eq mode clk f g line msg hm]
  apply cString_append_nul
  rw [List.forall_mem_append]
  exact ⟨headerString_ne_nul mode f line g clk hf hg, take_ne_nul _ _ hmsg⟩

theorem VbLogPrintExt_line_eq (mode : Nat) (clk : WallClock) (f g did : List Char)
    (line : Nat) (msg : List Char) (hm : mode < VB_LOG_LAST)
    (hf : ∀ c ∈ f, c ≠ NUL) (hg : ∀ c ∈ g, c ≠ NUL)
    (hd : ∀ c ∈ did, c ≠ NUL) (hmsg : ∀ c ∈ msg, c ≠ NUL) :
    cString (VbLogPrintExt_buffer mode clk (some f) line (some g) did msg) =
      headerString mode f line g clk ++ driverRegion did ++ msg.take 199 := by
  rw [VbLogPrintExt_buffer_eq mode clk f g did line msg hm]
  apply cString_append_nul
  rw [List.forall_mem_append, List.forall_mem_append]
  exact ⟨⟨headerString_ne_nul mode f line g clk hf hg, driverRegion_ne_nul did hd⟩,
    take_ne_nul _ _ hmsg⟩

theorem VbLogPrint_line_null (mode : Nat) (clk : WallClock)
    (file fn : Option (List Char)) (line : Nat) (msg : List Char)
    (h : file = none ∨ fn = none) :
    cString (VbLogPrint_buffer mode clk file line fn msg) = [] := by
  rw [VbLogPrint_buffer_null mode clk file fn line msg h, List.append_assoc]
  exact cString_replicate_nul _ (by norm_num) _

/-! Claim theorems. -/

/-- Claim C1: for every valid configured threshold T and every requested
level L, a plain or extended logging call (with the allocation succeeding)
emits a line to the sink iff L ≤ T numerically; when L > T the call performs
no allocation, no sink call and no fallback diagnostic, whatever the
allocator would have answered. -/
theorem claim_C1 (T L : Nat) (hT : T < VB_LOG_LAST) (clk : WallClock)
    (file : Option (List Char)) (line : Nat) (fn : Option (List Char))
    (did msg : List Char) :
    (((VbLogPrint_helper ⟨T⟩ true clk file line fn L msg).1.sinkCalls.length = 1) ↔ L ≤ T) ∧
    (((VbLogPrintExt_helper ⟨T⟩ true clk file line fn L did msg).1.sinkCalls.length = 1) ↔ L ≤ T) ∧
    (T < L → ∀ allocOk : Bool,
      (VbLogPrint_helper ⟨T⟩ allocOk clk file line fn L msg).1.sinkCalls = [] ∧
      (VbLogPrint_helper ⟨T⟩ allocOk clk file line fn L msg).1.allocated = false ∧
      (VbLogPrint_helper ⟨T⟩ allocOk clk file line fn L msg).1.errorPrints = 0 ∧
      (VbLogPrintExt_helper ⟨T⟩ allocOk clk file line fn L did msg).1.sinkCalls = [] ∧
      (VbLogPrintExt_helper ⟨T⟩ allocOk clk file line fn L did msg).1.allocated = false ∧
      (VbLogPrintExt_helper ⟨T⟩ allocOk clk file line fn L did msg).1.errorPrints = 0) := by
  by_cases h : L ≤ T
  · exact ⟨by simp [VbLogPrint_helper, h], by simp [VbLogPrintExt_helper, h],
      fun hlt => absurd h (by omega)⟩
  · exact ⟨by simp [VbLogPrint_helper, h], by simp [VbLogPrintExt_helper, h],
      fun hlt allocOk => by simp [VbLogPrint_helper, VbLogPrintExt_helper, h]⟩

/-- Claim C1, witness at threshold WARNING and requested level INFO
(filtered) with the gate hypothesis discharged concretely. -/
theorem claim_C1_witness :
    VB_LOG_WARNING < VB_LOG_LAST ∧
    ((((VbLogPrint_helper ⟨VB_LOG_WARNING⟩ true ⟨12, 0, 0, 0⟩ (some "net.c".data) 42
        (some "doSend".data) VB_LOG_INFO "x".data).1.sinkCalls.length = 1) ↔
          VB_LOG_INFO ≤ VB_LOG_WARNING) ∧
     (((VbLogPrintExt_helper ⟨VB_LOG_WARNING⟩ true ⟨12, 0, 0, 0⟩ (some "net.c".data) 42
        (some "doSend".data) VB_LOG_INFO "d".data "x".data).1.sinkCalls.length = 1) ↔
          VB_LOG_INFO ≤ VB_LOG_WARNING) ∧
     (VB_LOG_WARNING < VB_LOG_INFO → ∀ allocOk : Bool,
      (VbLogPrint_helper ⟨VB_LOG_WARNING⟩ allocOk ⟨12, 0, 0, 0⟩ (some "net.c".data) 42
        (some "doSend".data) VB_LOG_INFO "x".data).1.sinkCalls = [] ∧
      (VbLogPrint_helper ⟨VB_LOG_WARNING⟩ allocOk ⟨12, 0, 0, 0⟩ (some "net.c".data) 42
        (some "doSend".data) VB_LOG_INFO "x".data).1.allocated = false ∧
      (VbLogPrint_helper ⟨VB_LOG_WARNING⟩ allocOk ⟨12, 0, 0, 0⟩ (some "net.c".data) 42
        (some "doSend".data) VB_LOG_INFO "x".data).1.errorPrints = 0 ∧
      (VbLogPrintExt_helper ⟨VB_LOG_WARNING⟩ allocOk ⟨12, 0, 0, 0⟩ (some "net.c".data) 42
        (some "doSend".data) VB_LOG_INFO "d".data "x".data).1.sinkCalls = [] ∧
      (VbLogPrintExt_helper ⟨VB_LOG_WARNING⟩ allocOk ⟨12, 0, 0, 0⟩ (some "net.c".data) 42
        (some "doSend".data) VB_LOG_INFO "d".data "x".data).1.allocated = false ∧
      (VbLogPrintExt_helper ⟨VB_LOG_WARNING⟩ allocOk ⟨12, 0, 0, 0⟩ (some "net.c".data) 42
        (some "doSend".data) VB_LOG_INFO "d".data "x".data).1.errorPrints = 0)) :=
  ⟨by decide, claim_C1 VB_LOG_WARNING VB_LOG_INFO (by decide) ⟨12, 0, 0, 0⟩
    (some "net.c".data) 42 (some "doSend".data) "d".data "x".data⟩

/-- Claim C6: when allocation fails on a gate-passing call, the call makes no
sink call, writes exactly one diagnostic to the stderr fallback channel, and
leaves the state (the threshold) unchanged; a subsequent gate-passing call
with a working allocator emits its line normally. -/
theorem claim_C6 (st : LogState) (L L2 : Nat)
    (hL : L ≤ st.vbLogVerbose) (hL2 : L2 ≤ st.vbLogVerbose)
    (clk clk2 : WallClock) (file file2 : Option (List Char)) (line line2 : Nat)
    (fn fn2 : Option (List Char)) (did msg msg2 : List Char) :
    ((VbLogPrint_helper st false clk file line fn L msg).1.sinkCalls = [] ∧
     (VbLogPrint_helper st false clk file line fn L msg).1.errorPrints = 1 ∧
     (VbLogPrint_helper st false clk file line fn L msg).1.allocated = false ∧
     (VbLogPrint_helper st false clk file line fn L msg).2 = st) ∧
    ((VbLogPrintExt_helper st false clk file line fn L did msg).1.sinkCalls = [] ∧
     (VbLogPrintExt_helper st false clk file line fn L did msg).1.errorPrints = 1 ∧
     (VbLogPrintExt_helper st false clk file line fn L did msg).1.allocated = false ∧
     (VbLogPrintExt_helper st false clk file line fn L did msg).2 = st) ∧
    (VbLogPrint_helper (VbLogPrint_helper st false clk file line fn L msg).2 true
      clk2 file2 line2 fn2 L2 msg2).1.sinkCalls.length = 1 := by
  refine ⟨⟨?_, ?_, ?_, rfl⟩, ⟨?_, ?_, ?_, rfl⟩, ?_⟩ <;>
    simp [VbLogPrint_helper, VbLogPrintExt_helper, hL, hL2]

/-- Claim C6, witness: threshold DEBUG, both calls at level ERROR. -/
theorem claim_C6_witness :
    VB_LOG_ERROR ≤ VB_LOG_DEBUG ∧
    (((VbLogPrint_helper ⟨VB_LOG_DEBUG⟩ false ⟨1, 2, 3, 4⟩ (some "a.c".data) 5
        (some "f".data) VB_LOG_ERROR "m".data).1.sinkCalls = [] ∧
      (VbLogPrint_helper ⟨VB_LOG_DEBUG⟩ false ⟨1, 2, 3, 4⟩ (some "a.c".data) 5
        (some "f".data) VB_LOG_ERROR "m".data).1.errorPrints = 1 ∧
      (VbLogPrint_helper ⟨VB_LOG_DEBUG⟩ false ⟨1, 2, 3, 4⟩ (some "a.c".data) 5
        (some "f".data) VB_LOG_ERROR "m".data).1.allocated = false ∧
      (VbLogPrint_helper ⟨VB_LOG_DEBUG⟩ false ⟨1, 2, 3, 4⟩ (some "a.c".data) 5
        (some "f".data) VB_LOG_ERROR "m".data).2 = ⟨VB_LOG_DEBUG⟩) ∧
     ((VbLogPrintExt_helper ⟨VB_LOG_DEBUG⟩ false ⟨1, 2, 3, 4⟩ (some "a.c".data) 5
        (some "f".data) VB_LOG_ERROR "d".data "m".data).1.sinkCalls = [] ∧
      (VbLogPrintExt_helper ⟨VB_LOG_DEBUG⟩ false ⟨1, 2, 3, 4⟩ (some "a.c".data) 5
        (some "f".data) VB_LOG_ERROR "d".data "m".data).1.errorPrints = 1 ∧
      (VbLogPrintExt_helper ⟨VB_LOG_DEBUG⟩ false ⟨1, 2, 3, 4⟩ (some "a.c".data) 5
        (some "f".data) VB_LOG_ERROR "d".data "m".data).1.allocated = false ∧
      (VbLogPrintExt_helper ⟨VB_LOG_DEBUG⟩ false ⟨1, 2, 3, 4⟩ (some "a.c".data) 5
        (some "f".data) VB_LOG_ERROR "d".data "m".data).2 = ⟨VB_LOG_DEBUG⟩) ∧
     (VbLogPrint_helper (VbLogPrint_helper ⟨VB_LOG_DEBUG⟩ false ⟨1, 2, 3, 4⟩
        (some "a.c".data) 5 (some "f".data) VB_LOG_ERROR "m".data).2 true
        ⟨1, 2, 3, 5⟩ (some "a.c".data) 6 (some "f".data) VB_LOG_ERROR "n".data).1.sinkCalls.length = 1) :=
  ⟨by decide, claim_C6 ⟨VB_LOG_DEBUG⟩ VB_LOG_ERROR VB_LOG_ERROR (by decide) (by decide)
    ⟨1, 2, 3, 4⟩ ⟨1, 2, 3, 5⟩ (some "a.c".data) (some "a.c".data) 5 6
    (some "f".data) (some "f".data) "d".data "m".data "n".data⟩

/-- Claim C7: with non-null file and function names and a valid level, the
header builder writes exactly the header text at offset 0, that text has
exactly the statically-known header length for every line number and every
clock sample, and in the plain buffer the first header-length bytes are
exactly the header (the message body begins at that fixed offset). -/
theorem claim_C7 (dst : List Char) (mode : Nat) (hm : mode < VB_LOG_LAST)
    (f g : List Char) (line : Nat) (clk : WallClock) :
    VbLogHdrBuild dst mode (some f) line (some g) clk =
      writeAt dst 0 (headerString mode f line g clk ++ [NUL]) ∧
    (headerString mode f line g clk).length = VB_LOG_MAX_HDR_LEN ∧
    (∀ msg : List Char,
      (VbLogPrint_buffer mode clk (some f) line (some g) msg).take VB_LOG_MAX_HDR_LEN =
        headerString mode f line g clk) := by
  have hh := headerString_length mode f line g clk
  refine ⟨VbLogHdrBuild_some dst mode f g line clk hm, hh, fun msg => ?_⟩
  rw [VbLogPrint_buffer_eq mode clk f g line msg hm, List.append_assoc, ← hh,
    List.take_left]

/-- Claim C7, witness at a concrete source location and clock. -/
theorem claim_C7_witness :
    VB_LOG_ERROR < VB_LOG_LAST ∧
    (VbLogHdrBuild (List.replicate 307 NUL) VB_LOG_ERROR (some "net.c".data) 42
        (some "doSend".data) ⟨23, 59, 58, 999999⟩ =
      writeAt (List.replicate 307 NUL) 0
        (headerString VB_LOG_ERROR "net.c".data 42 "doSend".data ⟨23, 59, 58, 999999⟩ ++ [NUL]) ∧
     (headerString VB_LOG_ERROR "net.c".data 42 "doSend".data ⟨23, 59, 58, 999999⟩).length =
        VB_LOG_MAX_HDR_LEN ∧
     (∀ msg : List Char,
      (VbLogPrint_buffer VB_LOG_ERROR ⟨23, 59, 58, 999999⟩ (some "net.c".data) 42
          (some "doSend".data) msg).take VB_LOG_MAX_HDR_LEN =
        headerString VB_LOG_ERROR "net.c".data 42 "doSend".data ⟨23, 59, 58, 999999⟩)) :=
  ⟨by decide, claim_C7 (List.replicate 307 NUL) VB_LOG_ERROR (by decide)
    "net.c".data "doSend".data 42 ⟨23, 59, 58, 999999⟩⟩

/-- Claim C8: for every microsecond reading, the millisecond value placed in
the header is the microseconds divided by 1000 and clamped to at most 999,
and its rendering is always exactly three digit characters. -/
theorem claim_C8 (usec : Nat) :
    msecClamp usec = min (usec / 1000) 999 ∧
    msecClamp usec ≤ 999 ∧
    (zeroPad3 (msecClamp usec)).length = 3 := by
  unfold msecClamp
  refine ⟨?_, ?_, by simp [zeroPad3]⟩ <;> split <;> omega

/-- Claim C10: VbLogInit returns 0 for every argument combination, its only
effect on core state is storing the verbose level (the other five arguments
are ignored), the query call reads that stored value back, and neither print
helper ever changes the state. -/
theorem claim_C10 (q o : List Char) (v n p : Nat) (c : Bool) (s : LogState) :
    (VbLogInit q v o n p c s).1 = 0 ∧
    (VbLogInit q v o n p c s).2 = { vbLogVerbose := v } ∧
    VbLogVerboseLevelGet (VbLogInit q v o n p c s).2 = v ∧
    (∀ (q2 o2 : List Char) (n2 p2 : Nat) (c2 : Bool) (s2 : LogState),
      VbLogInit q v o n p c s = VbLogInit q2 v o2 n2 p2 c2 s2) ∧
    (∀ (st : LogState) (allocOk : Bool) (clk : WallClock)
        (file fn : Option (List Char)) (line L : Nat) (did msg : List Char),
      (VbLogPrint_helper st allocOk clk file line fn L msg).2 = st ∧
      (VbLogPrintExt_helper st allocOk clk file line fn L did msg).2 = st ∧
      VbLogVerboseLevelGet (VbLogPrint_helper st allocOk clk file line fn L msg).2 =
        VbLogVerboseLevelGet st ∧
      VbLogVerboseLevelGet (VbLogPrintExt_helper st allocOk clk file line fn L did msg).2 =
        VbLogVerboseLevelGet st) :=
  ⟨rfl, rfl, rfl, fun _ _ _ _ _ _ => rfl,
   fun _ _ _ _ _ _ _ _ _ => ⟨rfl, rfl, rfl, rfl⟩⟩

/-- Claim C2, counterexample: a gate-passing plain call with an empty message
emits one line of length 106 (the header alone), not the statically-known
total entry length of 306 — the message region is truncated, never padded,
so the emitted line does not have the fixed total length the claim states. -/
theorem claim_C2_counterexample :
    ((VbLogPrint_helper ⟨VB_LOG_ERROR⟩ true ⟨12, 34, 56, 789000⟩ (some "net.c".data) 42
        (some "doSend".data) VB_LOG_ERROR []).1.sinkCalls.map List.length) =
      [VB_LOG_MAX_HDR_LEN] ∧
    VB_LOG_MAX_HDR_LEN ≠ VB_LOG_ENTRY_LEN := by
  constructor
  · have hp : (VbLogPrint_helper ⟨VB_LOG_ERROR⟩ true ⟨12, 34, 56, 789000⟩ (some "net.c".data)
        42 (some "doSend".data) VB_LOG_ERROR []).1.sinkCalls =
        [cString (VbLogPrint_buffer VB_LOG_ERROR ⟨12, 34, 56, 789000⟩ (some "net.c".data)
          42 (some "doSend".data) [])] := by
      simp [VbLogPrint_helper]
    rw [hp, VbLogPrint_line_eq VB_LOG_ERROR ⟨12, 34, 56, 789000⟩ "net.c".data "doSend".data
      42 [] (by decide) (by decide) (by decide) (by decide)]
    simp [headerString_length]
  · decide

/-- Claim C2 (amended): for every gate-passing call with a valid level,
non-null source location and NUL-free inputs, exactly one sink call occurs;
the emitted line is the fixed-width header (plus, for the extended variant,
the fixed 21-byte subsystem region) followed by the message truncated to at
most message-width − 1 characters.  Its length is the fixed prefix width
plus the truncated message length — at most, but not exactly, the
statically-known total entry length, and never longer. -/
theorem claim_C2 (T L : Nat) (hg : L ≤ T) (hv : L < VB_LOG_LAST)
    (clk : WallClock) (f g did msg : List Char) (line : Nat)
    (hf : ∀ c ∈ f, c ≠ NUL) (hgn : ∀ c ∈ g, c ≠ NUL)
    (hd : ∀ c ∈ did, c ≠ NUL) (hmsg : ∀ c ∈ msg, c ≠ NUL) :
    ((VbLogPrint_helper ⟨T⟩ true clk (some f) line (some g) L msg).1.sinkCalls =
      [headerString L f line g clk ++ msg.take (VB_LOG_MAX_LINE_LEN - 1)]) ∧
    (∀ l ∈ (VbLogPrint_helper ⟨T⟩ true clk (some f) line (some g) L msg).1.sinkCalls,
      l.length = VB_LOG_MAX_HDR_LEN + min msg.length (VB_LOG_MAX_LINE_LEN - 1) ∧
      l.length ≤ VB_LOG_ENTRY_LEN) ∧
    ((VbLogPrintExt_helper ⟨T⟩ true clk (some f) line (some g) L did msg).1.sinkCalls =
      [headerString L f line g clk ++ driverRegion did ++ msg.take (VB_LOG_MAX_LINE_LEN - 1)]) ∧
    (∀ l ∈ (VbLogPrintExt_helper ⟨T⟩ true clk (some f) line (some g) L did msg).1.sinkCalls,
      l.length = VB_LOG_MAX_EXT_HDR_LEN - 1 + min msg.length (VB_LOG_MAX_LINE_LEN - 1) ∧
      l.length ≤ VB_LOG_EXT_ENTRY_LEN) := by
  have hh := headerString_length L f line g clk
  have hr := driverRegion_length did
  have hp : (VbLogPrint_helper ⟨T⟩ true clk (some f) line (some g) L msg).1.sinkCalls =
      [cString (VbLogPrint_buffer L clk (some f) line (some g) msg)] := by
    simp [VbLogPrint_helper, hg]
  have hq : (VbLogPrintExt_helper ⟨T⟩ true clk (some f) line (some g) L did msg).1.sinkCalls =
      [cString (VbLogPrintExt_buffer L clk (some f) line (some g) did msg)] := by
    simp [VbLogPrintExt_helper, hg]
  rw [hp, hq, VbLogPrint_line_eq L clk f g line msg hv hf hgn hmsg,
    VbLogPrintExt_line_eq L clk f g did line msg hv hf hgn hd hmsg,
    show VB_LOG_MAX_LINE_LEN - 1 = 199 from rfl]
  refine ⟨rfl, ?_, rfl, ?_⟩
  · intro l hl
    rw [List.mem_singleton] at hl
    subst hl
    simp only [List.length_append, List.length_take, hh]
    constructor
    · simp [VB_LOG_MAX_HDR_LEN_eq, VB_LOG_MAX_LINE_LEN_eq]
      omega
    · simp only [VB_LOG_MAX_HDR_LEN_eq, VB_LOG_ENTRY_LEN_eq]
      omega
  · intro l hl
    rw [List.mem_singleton] at hl
    subst hl
    simp only [List.length_append, List.length_take, hh, hr]
    constructor
    · simp [VB_LOG_MAX_HDR_LEN_eq, VB_LOG_MAX_DRIVER_HDR_LEN_eq, VB_LOG_MAX_EXT_HDR_LEN_eq,
        VB_LOG_MAX_LINE_LEN_eq]
      omega
    · simp only [VB_LOG_MAX_HDR_LEN_eq, VB_LOG_MAX_DRIVER_HDR_LEN_eq, VB_LOG_EXT_ENTRY_LEN_eq]
      omega

/-- Claim C2 (amended), witness: threshold WARNING, level ERROR, the spec's
concrete scenario inputs. -/
theorem claim_C2_witness :
    VB_LOG_ERROR ≤ VB_LOG_WARNING ∧ VB_LOG_ERROR < VB_LOG_LAST ∧
    (((VbLogPrint_helper ⟨VB_LOG_WARNING⟩ true ⟨12, 34, 56, 789000⟩ (some "net.c".data) 42
        (some "doSend".data) VB_LOG_ERROR "failed: 7".data).1.sinkCalls =
      [headerString VB_LOG_ERROR "net.c".data 42 "doSend".data ⟨12, 34, 56, 789000⟩ ++
        "failed: 7".data.take (VB_LOG_MAX_LINE_LEN - 1)]) ∧
    (∀ l ∈ (VbLogPrint_helper ⟨VB_LOG_WARNING⟩ true ⟨12, 34, 56, 789000⟩ (some "net.c".data) 42
        (some "doSend".data) VB_LOG_ERROR "failed: 7".data).1.sinkCalls,
      l.length = VB_LOG_MAX_HDR_LEN + min "failed: 7".data.length (VB_LOG_MAX_LINE_LEN - 1) ∧
      l.length ≤ VB_LOG_ENTRY_LEN) ∧
    ((VbLogPrintExt_helper ⟨VB_LOG_WARNING⟩ true ⟨12, 34, 56, 789000⟩ (some "net.c".data) 42
        (some "doSend".data) VB_LOG_ERROR "drv0".data "failed: 7".data).1.sinkCalls =
      [headerString VB_LOG_ERROR "net.c".data 42 "doSend".data ⟨12, 34, 56, 789000⟩ ++
        driverRegion "drv0".data ++ "failed: 7".data.take (VB_LOG_MAX_LINE_LEN - 1)]) ∧
    (∀ l ∈ (VbLogPrintExt_helper ⟨VB_LOG_WARNING⟩ true ⟨12, 34, 56, 789000⟩ (some "net.c".data) 42
        (some "doSend".data) VB_LOG_ERROR "drv0".data "failed: 7".data).1.sinkCalls,
      l.length = VB_LOG_MAX_EXT_HDR_LEN - 1 + min "failed: 7".data.length (VB_LOG_MAX_LINE_LEN - 1) ∧
      l.length ≤ VB_LOG_EXT_ENTRY_LEN)) :=
  ⟨by decide, by decide,
   claim_C2 VB_LOG_WARNING VB_LOG_ERROR (by decide) (by decide) ⟨12, 34, 56, 789000⟩
     "net.c".data "doSend".data "drv0".data "failed: 7".data 42
     (by decide) (by decide) (by decide) (by decide)⟩

/-- Claim C3, counterexample: a 31-character file name is truncated to its
first 30 characters (the full field width), not to the first width − 1 = 29
characters the claim states; the file and function copies go through a
width + 1 byte buffer and keep width characters. -/
theorem claim_C3_counterexample :
    file_name_str (List.replicate 31 'a') = List.replicate 30 'a' ∧
    file_name_str (List.replicate 31 'a') ≠
      (List.replicate 31 'a').take (VB_LOG_MAX_FILE_LEN - 1) := by
  constructor <;> decide

/-- Claim C3 (amended): an over-long file name keeps its first
`VB_LOG_MAX_FILE_LEN` (30) characters and an over-long function name its
first `VB_LOG_MAX_FUNC_LEN` (40) characters — the full field width, one
more than the claim's width − 1, because their copy buffers are width + 1
bytes with the terminator forced at index width; only the subsystem id is
cut at width − 1 (19 of `VB_EA_DRIVER_ID_MAX_SIZE` = 20), its buffer being
exactly width bytes.  No copy ever exceeds its field buffer. -/
theorem claim_C3 (f g d : List Char)
    (hf : VB_LOG_MAX_FILE_LEN < f.length) (hg : VB_LOG_MAX_FUNC_LEN < g.length)
    (hd : VB_EA_DRIVER_ID_MAX_SIZE ≤ d.length) :
    file_name_str f = f.take VB_LOG_MAX_FILE_LEN ∧
    (file_name_str f).length = VB_LOG_MAX_FILE_LEN ∧
    func_name_str g = g.take VB_LOG_MAX_FUNC_LEN ∧
    (func_name_str g).length = VB_LOG_MAX_FUNC_LEN ∧
    driver_id_str d = d.take (VB_EA_DRIVER_ID_MAX_SIZE - 1) ∧
    (driver_id_str d).length = VB_EA_DRIVER_ID_MAX_SIZE - 1 ∧
    (∀ x : List Char, (file_name_str x).length ≤ VB_LOG_MAX_FILE_LEN ∧
      (func_name_str x).length ≤ VB_LOG_MAX_FUNC_LEN ∧
      (driver_id_str x).length ≤ VB_EA_DRIVER_ID_MAX_SIZE - 1) := by
  refine ⟨rfl, ?_, rfl, ?_, rfl, ?_, fun x => ⟨?_, ?_, ?_⟩⟩ <;>
    simp [file_name_str, func_name_str, driver_id_str,
      VB_LOG_MAX_FILE_LEN, VB_LOG_MAX_FUNC_LEN, VB_EA_DRIVER_ID_MAX_SIZE] at * <;>
    omega

/-- Claim C3 (amended), witness on over-long concrete names. -/
theorem claim_C3_witness :
    VB_LOG_MAX_FILE_LEN < (List.replicate 31 'a').length ∧
    VB_LOG_MAX_FUNC_LEN < (List.replicate 41 'b').length ∧
    VB_EA_DRIVER_ID_MAX_SIZE ≤ (List.replicate 64 'x').length ∧
    (file_name_str (List.replicate 31 'a') = (List.replicate 31 'a').take VB_LOG_MAX_FILE_LEN ∧
     (file_name_str (List.replicate 31 'a')).length = VB_LOG_MAX_FILE_LEN ∧
     func_name_str (List.replicate 41 'b') = (List.replicate 41 'b').take VB_LOG_MAX_FUNC_LEN ∧
     (func_name_str (List.replicate 41 'b')).length = VB_LOG_MAX_FUNC_LEN ∧
     driver_id_str (List.replicate 64 'x') =
       (List.replicate 64 'x').take (VB_EA_DRIVER_ID_MAX_SIZE - 1) ∧
     (driver_id_str (List.replicate 64 'x')).length = VB_EA_DRIVER_ID_MAX_SIZE - 1 ∧
     (∀ x : List Char, (file_name_str x).length ≤ VB_LOG_MAX_FILE_LEN ∧
       (func_name_str x).length ≤ VB_LOG_MAX_FUNC_LEN ∧
       (driver_id_str x).length ≤ VB_EA_DRIVER_ID_MAX_SIZE - 1)) :=
  ⟨by decide, by decide, by decide,
   claim_C3 (List.replicate 31 'a') (List.replicate 41 'b') (List.replicate 64 'x')
     (by decide) (by decide) (by decide)⟩

theorem driverRegion_eq (did : List Char) :
    driverRegion did = '[' :: padRight VB_LOG_DRIVER_ID_WIDTH (driver_id_str did) := by
  have h : ('[' :: padRight VB_LOG_DRIVER_ID_WIDTH (driver_id_str did)).length =
      VB_LOG_MAX_DRIVER_HDR_LEN - 1 := by
    simp [padRight_length, driver_id_str, VB_LOG_DRIVER_ID_WIDTH,
      VB_LOG_MAX_DRIVER_HDR_LEN, VB_EA_DRIVER_ID_MAX_SIZE]
    try omega
  unfold driverRegion
  rw [← h, List.take_left]

/-- Claim C4: on a gate-passing extended call the subsystem identifier is
rendered between the base header and the message body as a fixed-width
(21-byte) region — the opening bracket followed by the identifier's copy
left-justified and space-padded/truncated to the 20-character width (the
closing bracket of the format falls to the snprintf size bound); in
particular a 64-character identifier yields a copied field of exactly 19
characters, i.e. exactly `VB_EA_DRIVER_ID_MAX_SIZE` = 20 bytes with its
terminator — not 64. -/
theorem claim_C4 (T L : Nat) (hg : L ≤ T) (hv : L < VB_LOG_LAST)
    (clk : WallClock) (f g did msg : List Char) (line : Nat)
    (hf : ∀ c ∈ f, c ≠ NUL) (hgn : ∀ c ∈ g, c ≠ NUL)
    (hd : ∀ c ∈ did, c ≠ NUL) (hmsg : ∀ c ∈ msg, c ≠ NUL) :
    ((VbLogPrintExt_helper ⟨T⟩ true clk (some f) line (some g) L did msg).1.sinkCalls =
      [headerString L f line g clk ++ driverRegion did ++ msg.take (VB_LOG_MAX_LINE_LEN - 1)]) ∧
    driverRegion did = '[' :: padRight VB_LOG_DRIVER_ID_WIDTH (driver_id_str did) ∧
    (driverRegion did).length = VB_LOG_MAX_DRIVER_HDR_LEN - 1 ∧
    driver_id_str (List.replicate 64 'x') = List.replicate (VB_EA_DRIVER_ID_MAX_SIZE - 1) 'x' ∧
    (driver_id_str (List.replicate 64 'x') ++ [NUL]).length = VB_EA_DRIVER_ID_MAX_SIZE := by
  have hq : (VbLogPrintExt_helper ⟨T⟩ true clk (some f) line (some g) L did msg).1.sinkCalls =
      [cString (VbLogPrintExt_buffer L clk (some f) line (some g) did msg)] := by
    simp [VbLogPrintExt_helper, hg]
  refine ⟨?_, driverRegion_eq did, driverRegion_length did, by decide, by decide⟩
  rw [hq, VbLogPrintExt_line_eq L clk f g did line msg hv hf hgn hd hmsg,
    show VB_LOG_MAX_LINE_LEN - 1 = 199 from rfl]

/-- Claim C4, witness: extended call at threshold DEBUG, level INFO, with a
64-character subsystem identifier. -/
theorem claim_C4_witness :
    VB_LOG_INFO ≤ VB_LOG_DEBUG ∧ VB_LOG_INFO < VB_LOG_LAST ∧
    (((VbLogPrintExt_helper ⟨VB_LOG_DEBUG⟩ true ⟨1, 2, 3, 4⟩ (some "a.c".data) 9
        (some "fn".data) VB_LOG_INFO (List.replicate 64 'x') "msg".data).1.sinkCalls =
      [headerString VB_LOG_INFO "a.c".data 9 "fn".data ⟨1, 2, 3, 4⟩ ++
        driverRegion (List.replicate 64 'x') ++ "msg".data.take (VB_LOG_MAX_LINE_LEN - 1)]) ∧
    driverRegion (List.replicate 64 'x') =
      '[' :: padRight VB_LOG_DRIVER_ID_WIDTH (driver_id_str (List.replicate 64 'x')) ∧
    (driverRegion (List.replicate 64 'x')).length = VB_LOG_MAX_DRIVER_HDR_LEN - 1 ∧
    driver_id_str (List.replicate 64 'x') = List.replicate (VB_EA_DRIVER_ID_MAX_SIZE - 1) 'x' ∧
    (driver_id_str (List.replicate 64 'x') ++ [NUL]).length = VB_EA_DRIVER_ID_MAX_SIZE) :=
  ⟨by decide, by decide,
   claim_C4 VB_LOG_DEBUG VB_LOG_INFO (by decide) (by decide) ⟨1, 2, 3, 4⟩
     "a.c".data "fn".data (List.replicate 64 'x') "msg".data 9
     (by decide) (by decide) (by decide) (by decide)⟩

/-- Claim C5, counterexample: a gate-passing plain call with a null file name
does not fault, but the sink receives an empty line — the header build is
skipped entirely, the calloc'd header region stays NUL, and the "%s" read
stops at its first byte, so the message ("hi"), though formatted into the
buffer, is not part of the emitted line; the rest of the entry is not
produced at the sink. -/
theorem claim_C5_counterexample :
    (VbLogPrint_helper ⟨VB_LOG_ERROR⟩ true ⟨1, 2, 3, 4⟩ none 7 (some "doSend".data)
      VB_LOG_ERROR "hi".data).1.sinkCalls = [[]] ∧
    ("hi".data : List Char) ≠ [] := by
  constructor
  · have hp : (VbLogPrint_helper ⟨VB_LOG_ERROR⟩ true ⟨1, 2, 3, 4⟩ none 7 (some "doSend".data)
        VB_LOG_ERROR "hi".data).1.sinkCalls =
        [cString (VbLogPrint_buffer VB_LOG_ERROR ⟨1, 2, 3, 4⟩ none 7 (some "doSend".data)
          "hi".data)] := by
      simp [VbLogPrint_helper]
    rw [hp, VbLogPrint_line_null _ _ _ _ _ _ (Or.inl rfl)]
  · decide

/-- Claim C5 (amended): with a null file or function name, a gate-passing
call does not fault: it completes, allocates, writes no fallback diagnostic
and still makes exactly one sink call — but the whole header region is left
as NUL bytes (not blank-filled), so the emitted line is empty; the message
is still formatted into the buffer at the fixed header offset, it just never
reaches the sink line. -/
theorem claim_C5 (st : LogState) (L : Nat) (hL : L ≤ st.vbLogVerbose)
    (clk : WallClock) (file fn : Option (List Char)) (line : Nat)
    (did msg : List Char) (h : file = none ∨ fn = none) :
    ((VbLogPrint_helper st true clk file line fn L msg).1.sinkCalls = [[]] ∧
     (VbLogPrint_helper st true clk file line fn L msg).1.errorPrints = 0 ∧
     (VbLogPrint_helper st true clk file line fn L msg).1.allocated = true) ∧
    ((VbLogPrintExt_helper st true clk file line fn L did msg).1.sinkCalls = [[]] ∧
     (VbLogPrintExt_helper st true clk file line fn L did msg).1.errorPrints = 0 ∧
     (VbLogPrintExt_helper st true clk file line fn L did msg).1.allocated = true) ∧
    ((VbLogPrint_buffer L clk file line fn msg).drop VB_LOG_MAX_HDR_LEN).take
        (msg.take (VB_LOG_MAX_LINE_LEN - 1)).length = msg.take (VB_LOG_MAX_LINE_LEN - 1) := by
  refine ⟨⟨?_, ?_, ?_⟩, ⟨?_, ?_, ?_⟩, ?_⟩
  · have hp : (VbLogPrint_helper st true clk file line fn L msg).1.sinkCalls =
        [cString (VbLogPrint_buffer L clk file line fn msg)] := by
      simp [VbLogPrint_helper, hL]
    rw [hp, VbLogPrint_line_null _ _ _ _ _ _ h]
  · simp [VbLogPrint_helper, hL]
  · simp [VbLogPrint_helper, hL]
  · have hq : (VbLogPrintExt_helper st true clk file line fn L did msg).1.sinkCalls =
        [cString (VbLogPrintExt_buffer L clk file line fn did msg)] := by
      simp [VbLogPrintExt_helper, hL]
    rw [hq, VbLogPrintExt_line_null _ _ _ _ _ _ _ h]
  · simp [VbLogPrintExt_helper, hL]
  · simp [VbLogPrintExt_helper, hL]
  · rw [VbLogPrint_buffer_null _ _ _ _ _ _ h, VB_LOG_MAX_HDR_LEN_eq, List.append_assoc,
      List.drop_left' (by simp), show VB_LOG_MAX_LINE_LEN - 1 = 199 from rfl,
      List.take_left]

/-- Claim C5 (amended), witness: null file name at threshold DEBUG. -/
theorem claim_C5_witness :
    VB_LOG_WARNING ≤ VB_LOG_DEBUG ∧
    (((VbLogPrint_helper ⟨VB_LOG_DEBUG⟩ true ⟨1, 2, 3, 4⟩ none 7 (some "fn".data)
        VB_LOG_WARNING "hi".data).1.sinkCalls = [[]] ∧
      (VbLogPrint_helper ⟨VB_LOG_DEBUG⟩ true ⟨1, 2, 3, 4⟩ none 7 (some "fn".data)
        VB_LOG_WARNING "hi".data).1.errorPrints = 0 ∧
      (VbLogPrint_helper ⟨VB_LOG_DEBUG⟩ true ⟨1, 2, 3, 4⟩ none 7 (some "fn".data)
        VB_LOG_WARNING "hi".data).1.allocated = true) ∧
     ((VbLogPrintExt_helper ⟨VB_LOG_DEBUG⟩ true ⟨1, 2, 3, 4⟩ none 7 (some "fn".data)
        VB_LOG_WARNING "d".data "hi".data).1.sinkCalls = [[]] ∧
      (VbLogPrintExt_helper ⟨VB_LOG_DEBUG⟩ true ⟨1, 2, 3, 4⟩ none 7 (some "fn".data)
        VB_LOG_WARNING "d".data "hi".data).1.errorPrints = 0 ∧
      (VbLogPrintExt_helper ⟨VB_LOG_DEBUG⟩ true ⟨1, 2, 3, 4⟩ none 7 (some "fn".data)
        VB_LOG_WARNING "d".data "hi".data).1.allocated = true) ∧
     ((VbLogPrint_buffer VB_LOG_WARNING ⟨1, 2, 3, 4⟩ none 7 (some "fn".data)
        "hi".data).drop VB_LOG_MAX_HDR_LEN).take
          ("hi".data.take (VB_LOG_MAX_LINE_LEN - 1)).length =
        "hi".data.take (VB_LOG_MAX_LINE_LEN - 1)) :=
  ⟨by decide, claim_C5 ⟨VB_LOG_DEBUG⟩ VB_LOG_WARNING (by decide) ⟨1, 2, 3, 4⟩
    none (some "fn".data) 7 "d".data "hi".data (Or.inl rfl)⟩

/-- Claim C9, counterexample: the gate checks only the numeric comparison,
never the sentinel, so when the configured threshold is itself the sentinel
value, a request at the sentinel level passes the gate: the call allocates
and makes a sink call (carrying an empty line, the header build having been
skipped) instead of being treated as filtered out. -/
theorem claim_C9_counterexample :
    (VbLogPrint_helper ⟨VB_LOG_LAST⟩ true ⟨1, 2, 3, 4⟩ (some "f.c".data) 1
      (some "g".data) VB_LOG_LAST "m".data).1.allocated = true ∧
    (VbLogPrint_helper ⟨VB_LOG_LAST⟩ true ⟨1, 2, 3, 4⟩ (some "f.c".data) 1
      (some "g".data) VB_LOG_LAST "m".data).1.sinkCalls.length = 1 := by
  constructor <;> simp [VbLogPrint_helper]

/-- Claim C9 (amended): for every requested level at or beyond the sentinel
and every configured threshold strictly below the sentinel (a valid
threshold), both logging calls are filtered out — no allocation, no sink
call, no diagnostic; if the threshold is itself at or beyond the sentinel,
such a request can pass the purely numeric gate and reach the sink. -/
theorem claim_C9 (T L : Nat) (hT : T < VB_LOG_LAST) (hL : VB_LOG_LAST ≤ L)
    (allocOk : Bool) (clk : WallClock) (file fn : Option (List Char)) (line : Nat)
    (did msg : List Char) :
    (VbLogPrint_helper ⟨T⟩ allocOk clk file line fn L msg).1.sinkCalls = [] ∧
    (VbLogPrint_helper ⟨T⟩ allocOk clk file line fn L msg).1.errorPrints = 0 ∧
    (VbLogPrint_helper ⟨T⟩ allocOk clk file line fn L msg).1.allocated = false ∧
    (VbLogPrintExt_helper ⟨T⟩ allocOk clk file line fn L did msg).1.sinkCalls = [] ∧
    (VbLogPrintExt_helper ⟨T⟩ allocOk clk file line fn L did msg).1.errorPrints = 0 ∧
    (VbLogPrintExt_helper ⟨T⟩ allocOk clk file line fn L did msg).1.allocated = false := by
  have h : ¬ (L ≤ T) := Nat.not_le.mpr (Nat.lt_of_lt_of_le hT hL)
  simp [VbLogPrint_helper, VbLogPrintExt_helper, h]

/-- Claim C9 (amended), witness: threshold DEBUG, request at the sentinel. -/
theorem claim_C9_witness :
    VB_LOG_DEBUG < VB_LOG_LAST ∧ VB_LOG_LAST ≤ VB_LOG_LAST ∧
    ((VbLogPrint_helper ⟨VB_LOG_DEBUG⟩ true ⟨1, 2, 3, 4⟩ (some "f.c".data) 1
        (some "g".data) VB_LOG_LAST "m".data).1.sinkCalls = [] ∧
     (VbLogPrint_helper ⟨VB_LOG_DEBUG⟩ true ⟨1, 2, 3, 4⟩ (some "f.c".data) 1
        (some "g".data) VB_LOG_LAST "m".data).1.errorPrints = 0 ∧
     (VbLogPrint_helper ⟨VB_LOG_DEBUG⟩ true ⟨1, 2, 3, 4⟩ (some "f.c".data) 1
        (some "g".data) VB_LOG_LAST "m".data).1.allocated = false ∧
     (VbLogPrintExt_helper ⟨VB_LOG_DEBUG⟩ true ⟨1, 2, 3, 4⟩ (some "f.c".data) 1
        (some "g".data) VB_LOG_LAST "d".data "m".data).1.sinkCalls = [] ∧
     (VbLogPrintExt_helper ⟨VB_LOG_DEBUG⟩ true ⟨1, 2, 3, 4⟩ (some "f.c".data) 1
        (some "g".data) VB_LOG_LAST "d".data "m".data).1.errorPrints = 0 ∧
     (VbLogPrintExt_helper ⟨VB_LOG_DEBUG⟩ true ⟨1, 2, 3, 4⟩ (some "f.c".data) 1
        (some "g".data) VB_LOG_LAST "d".data "m".data).1.allocated = false) :=
  ⟨by decide, by decide,
   claim_C9 VB_LOG_DEBUG VB_LOG_LAST (by decide) (by decide) true ⟨1, 2, 3, 4⟩
     (some "f.c".data) (some "g".data) 1 "d".data "m".data⟩

end VbLog
